import Mathlib

/-!
Shallow embedding of the effective-address and operand-access layer of the
martypc 8086/8088 emulator (src/cpu/cpu_addressing.rs), together with the
collaborator contracts that file consumes (register file, displacement
decoding, linear-address folding, bus interface).  Machine integers are
modelled as Nat with explicit reduction modulo 2^8, 2^16 or 2^20 at the
points where the Rust code wraps.  A Rust panic is modelled as the
Except.error branch of an EmuPanic-valued Except; a normal return is
Except.ok.  The mutation performed by a write entry point is modelled by
returning the new CPU state together with the list of bus write accesses
the call issued.
-/

/-- The 8-bit register identities of crate::arch (AH/AL/BH/BL/CH/CL/DH/DL). -/
inductive Register8
  | AH | AL | BH | BL | CH | CL | DH | DL
  deriving DecidableEq

/-- The 16-bit register identities of crate::arch.  The twelve named
identities are the legal read/write targets; the source's catch-all
panic arm in read_operand16/write_operand16 implies the enumeration has
further identities, modelled here by the single extra constructor
InvalidRegister (modelled from the spec, which calls any such identity an
unrecognized one). -/
inductive Register16
  | AX | CX | DX | BX | SP | BP | SI | DI | ES | CS | SS | DS
  | InvalidRegister
  deriving DecidableEq

/-- Modelled from the spec: the decoder's Displacement payload
(crate::arch, not under src/).  get_u16 yields the displacement as a
16-bit value: an 8-bit displacement is sign-extended, a 16-bit one is
taken raw.  The payload Nat is the raw bit pattern. -/
inductive Displacement
  | Disp8 (d : Nat)
  | Disp16 (d : Nat)
  deriving DecidableEq

/-- Modelled from the spec: sign-extended 8-bit or raw 16-bit displacement
value, as a 16-bit unsigned quantity. -/
def Displacement.get_u16 : Displacement → Nat
  | .Disp8 d => if d % 256 < 128 then d % 256 else d % 256 + 65280
  | .Disp16 d => d % 65536

/-- The ModRM addressing-mode forms of crate::arch, as matched by
calc_effective_address. -/
inductive AddressingMode
  | BxSi | BxDi | BpSi | BpDi | Si | Di
  | Disp16 (d : Displacement)
  | Bx
  | BxSiDisp8 (d : Displacement) | BxDiDisp8 (d : Displacement)
  | BpSiDisp8 (d : Displacement) | BpDiDisp8 (d : Displacement)
  | SiDisp8 (d : Displacement) | DiDisp8 (d : Displacement)
  | BpDisp8 (d : Displacement) | BxDisp8 (d : Displacement)
  | BxSiDisp16 (d : Displacement) | BxDiDisp16 (d : Displacement)
  | BpSiDisp16 (d : Displacement) | BpDiDisp16 (d : Displacement)
  | SiDisp16 (d : Displacement) | DiDisp16 (d : Displacement)
  | BpDisp16 (d : Displacement) | BxDisp16 (d : Displacement)
  | RegisterMode
  deriving DecidableEq

/-- The segment-override states of crate::arch. -/
inductive SegmentOverride
  | NoOverride | SegmentES | SegmentCS | SegmentSS | SegmentDS
  deriving DecidableEq

/-- The decoded operand descriptor of crate::arch, as matched by the four
operand accessors.  Immediate/relative/offset/address payloads are raw
bit patterns as Nat. -/
inductive OperandType
  | Immediate8 (v : Nat)
  | Immediate16 (v : Nat)
  | Relative8 (v : Nat)
  | Relative16 (v : Nat)
  | Offset8 (v : Nat)
  | Offset16 (v : Nat)
  | Register8 (r : Register8)
  | Register16 (r : Register16)
  | AddressingMode (m : AddressingMode)
  | NearAddress (v : Nat)
  | FarAddress (s : Nat) (o : Nat)
  | NoOperand
  | InvalidOperand
  deriving DecidableEq

/-- Modelled from the spec: the CPU register file (crate::cpu, not under
src/).  Each 16-bit general register is a single backing store; the 8-bit
halves (AH/AL and so on) are masked views of it, per the aliasing
invariant.  Field order: ax, bx, cx, dx, sp, bp, si, di, cs, ds, es, ss. -/
structure Cpu where
  ax : Nat
  bx : Nat
  cx : Nat
  dx : Nat
  sp : Nat
  bp : Nat
  si : Nat
  di : Nat
  cs : Nat
  ds : Nat
  es : Nat
  ss : Nat
  deriving DecidableEq

/-- High byte of AX (modelled from the spec: masked view of the backing
16-bit register). -/
def Cpu.ah (c : Cpu) : Nat := c.ax / 256 % 256

/-- Low byte of AX. -/
def Cpu.al (c : Cpu) : Nat := c.ax % 256

/-- High byte of BX. -/
def Cpu.bh (c : Cpu) : Nat := c.bx / 256 % 256

/-- Low byte of BX. -/
def Cpu.bl (c : Cpu) : Nat := c.bx % 256

/-- High byte of CX. -/
def Cpu.ch (c : Cpu) : Nat := c.cx / 256 % 256

/-- Low byte of CX. -/
def Cpu.cl (c : Cpu) : Nat := c.cx % 256

/-- High byte of DX. -/
def Cpu.dh (c : Cpu) : Nat := c.dx / 256 % 256

/-- Low byte of DX. -/
def Cpu.dl (c : Cpu) : Nat := c.dx % 256

/-- Well-formedness of a register state: every 16-bit register holds a
value below 2^16, as the Rust u16 fields guarantee. -/
def Cpu.Wf (c : Cpu) : Prop :=
  c.ax < 65536 ∧ c.bx < 65536 ∧ c.cx < 65536 ∧ c.dx < 65536 ∧
  c.sp < 65536 ∧ c.bp < 65536 ∧ c.si < 65536 ∧ c.di < 65536 ∧
  c.cs < 65536 ∧ c.ds < 65536 ∧ c.es < 65536 ∧ c.ss < 65536

instance (c : Cpu) : Decidable c.Wf := by unfold Cpu.Wf; infer_instance

/-- Modelled from the spec: the register file setter for an 8-bit
identity (crate::cpu set_register8, not under src/): a masked update of
one half of the backing 16-bit register, leaving the other half intact. -/
def set_register8 (c : Cpu) (r : Register8) (v : Nat) : Cpu :=
  match r with
  | .AH => { c with ax := v % 256 * 256 + c.ax % 256 }
  | .AL => { c with ax := c.ax / 256 % 256 * 256 + v % 256 }
  | .BH => { c with bx := v % 256 * 256 + c.bx % 256 }
  | .BL => { c with bx := c.bx / 256 % 256 * 256 + v % 256 }
  | .CH => { c with cx := v % 256 * 256 + c.cx % 256 }
  | .CL => { c with cx := c.cx / 256 % 256 * 256 + v % 256 }
  | .DH => { c with dx := v % 256 * 256 + c.dx % 256 }
  | .DL => { c with dx := c.dx / 256 % 256 * 256 + v % 256 }

/-- Modelled from the spec: the register file setter for a 16-bit
identity (crate::cpu set_register16, not under src/).  The twelve legal
identities store the 16-bit value; the setter is never reached with any
other identity (the accessor panics first), so InvalidRegister is mapped
to the unchanged state for totality. -/
def set_register16 (c : Cpu) (r : Register16) (v : Nat) : Cpu :=
  match r with
  | .AX => { c with ax := v % 65536 }
  | .CX => { c with cx := v % 65536 }
  | .DX => { c with dx := v % 65536 }
  | .BX => { c with bx := v % 65536 }
  | .SP => { c with sp := v % 65536 }
  | .BP => { c with bp := v % 65536 }
  | .SI => { c with si := v % 65536 }
  | .DI => { c with di := v % 65536 }
  | .ES => { c with es := v % 65536 }
  | .CS => { c with cs := v % 65536 }
  | .SS => { c with ss := v % 65536 }
  | .DS => { c with ds := v % 65536 }
  | .InvalidRegister => c

/-- A Rust panic reached from this layer: EA calculation on RegisterMode,
an unwrap of a failed bus access, or the catch-all Register16 arm. -/
inductive EmuPanic
  | eaRegisterMode
  | busUnwrap
  | invalidRegister16
  deriving DecidableEq

/-- u16 wrapping addition: sum modulo 2^16. -/
def wrapping_add (a b : Nat) : Nat := (a + b) % 65536

/-- Modelled from the spec: linear-address folding (crate::util
get_linear_address, not under src/): segment * 16 + offset, wrapped to
the 20-bit (1 MiB) address space. -/
def get_linear_address (segment offset : Nat) : Nat :=
  (segment * 16 + offset) % 1048576

/-- The segment value the source binds as segment_base_default_ds: DS
when no override is present, otherwise the overridden register. -/
def segment_base_default_ds (c : Cpu) (segment : SegmentOverride) : Nat :=
  match segment with
  | .NoOverride => c.ds
  | .SegmentES => c.es
  | .SegmentCS => c.cs
  | .SegmentSS => c.ss
  | .SegmentDS => c.ds

/-- The segment value the source binds as segment_base_default_ss: SS
when no override is present, otherwise the overridden register. -/
def segment_base_default_ss (c : Cpu) (segment : SegmentOverride) : Nat :=
  match segment with
  | .NoOverride => c.ss
  | .SegmentES => c.es
  | .SegmentCS => c.cs
  | .SegmentSS => c.ss
  | .SegmentDS => c.ds

/-- Embedding of Cpu::calc_effective_address: dispatch on the addressing
mode, returning the (segment, offset) pair; the RegisterMode arm is the
source's panic. -/
def calc_effective_address (c : Cpu) (mode : AddressingMode)
    (segment : SegmentOverride) : Except EmuPanic (Nat × Nat) :=
  match mode with
  | .BxSi => .ok (segment_base_default_ds c segment, wrapping_add c.bx c.si)
  | .BxDi => .ok (segment_base_default_ds c segment, wrapping_add c.bx c.di)
  | .BpSi => .ok (segment_base_default_ss c segment, wrapping_add c.bp c.si)
  | .BpDi => .ok (segment_base_default_ss c segment, wrapping_add c.bp c.di)
  | .Si => .ok (segment_base_default_ds c segment, c.si)
  | .Di => .ok (segment_base_default_ds c segment, c.di)
  | .Disp16 disp16 => .ok (segment_base_default_ds c segment, disp16.get_u16)
  | .Bx => .ok (segment_base_default_ds c segment, c.bx)
  | .BxSiDisp8 disp8 =>
      .ok (segment_base_default_ds c segment,
        wrapping_add c.bx (wrapping_add c.si disp8.get_u16))
  | .BxDiDisp8 disp8 =>
      .ok (segment_base_default_ds c segment,
        wrapping_add c.bx (wrapping_add c.di disp8.get_u16))
  | .BpSiDisp8 disp8 =>
      .ok (segment_base_default_ss c segment,
        wrapping_add c.bp (wrapping_add c.si disp8.get_u16))
  | .BpDiDisp8 disp8 =>
      .ok (segment_base_default_ss c segment,
        wrapping_add c.bp (wrapping_add c.di disp8.get_u16))
  | .SiDisp8 disp8 =>
      .ok (segment_base_default_ds c segment, wrapping_add c.si disp8.get_u16)
  | .DiDisp8 disp8 =>
      .ok (segment_base_default_ds c segment, wrapping_add c.di disp8.get_u16)
  | .BpDisp8 disp8 =>
      .ok (segment_base_default_ss c segment, wrapping_add c.bp disp8.get_u16)
  | .BxDisp8 disp8 =>
      .ok (segment_base_default_ds c segment, wrapping_add c.bx disp8.get_u16)
  | .BxSiDisp16 disp16 =>
      .ok (segment_base_default_ds c segment,
        wrapping_add c.bx (wrapping_add c.si disp16.get_u16))
  | .BxDiDisp16 disp16 =>
      .ok (segment_base_default_ds c segment,
        wrapping_add c.bx (wrapping_add c.di disp16.get_u16))
  | .BpSiDisp16 disp16 =>
      .ok (segment_base_default_ss c segment,
        wrapping_add c.bp (wrapping_add c.si disp16.get_u16))
  | .BpDiDisp16 disp16 =>
      .ok (segment_base_default_ss c segment,
        wrapping_add c.bp (wrapping_add c.di disp16.get_u16))
  | .SiDisp16 disp16 =>
      .ok (segment_base_default_ds c segment, wrapping_add c.si disp16.get_u16)
  | .DiDisp16 disp16 =>
      .ok (segment_base_default_ds c segment, wrapping_add c.di disp16.get_u16)
  | .BpDisp16 disp16 =>
      .ok (segment_base_default_ss c segment, wrapping_add c.bp disp16.get_u16)
  | .BxDisp16 disp16 =>
      .ok (segment_base_default_ds c segment, wrapping_add c.bx disp16.get_u16)
  | .RegisterMode => .error .eaRegisterMode

/-- Modelled from the spec: bus failure classes (address out of any
mapped range, device fault). -/
inductive BusError
  | OutOfRange
  | DeviceFault
  deriving DecidableEq

/-- Modelled from the spec: the bus collaborator (crate::bus
BusInterface, not under src/).  Reads yield (value, access cost) or a
BusError; writes yield the access cost or a BusError. -/
structure BusInterface where
  read_u8 : Nat → Except BusError (Nat × Nat)
  read_u16 : Nat → Except BusError (Nat × Nat)
  write_u8 : Nat → Nat → Except BusError Nat
  write_u16 : Nat → Nat → Except BusError Nat

/-- A bus write access issued by a write entry point, recorded as
instrumentation of the call's effect on the bus. -/
inductive BusWrite
  | w8 (addr : Nat) (value : Nat)
  | w16 (addr : Nat) (value : Nat)
  deriving DecidableEq

/-- Embedding of Cpu::read_operand8.  The result is Except.error on a
panic (RegisterMode effective address, or the unwrap of a failed bus
read) and Except.ok on a normal return; the Option inside is the Rust
Option result. -/
def read_operand8 (c : Cpu) (bus : BusInterface) (operand : OperandType)
    (seg_override : SegmentOverride) : Except EmuPanic (Option Nat) :=
  match operand with
  | .Immediate8 imm8 => .ok (some imm8)
  | .Immediate16 _ => .ok none
  | .Relative8 rel8 => .ok (some (rel8 % 256))
  | .Relative16 _ => .ok none
  | .Offset8 _ => .ok none
  | .Offset16 _ => .ok none
  | .Register8 reg8 =>
      match reg8 with
      | .AH => .ok (some c.ah)
      | .AL => .ok (some c.al)
      | .BH => .ok (some c.bh)
      | .BL => .ok (some c.bl)
      | .CH => .ok (some c.ch)
      | .CL => .ok (some c.cl)
      | .DH => .ok (some c.dh)
      | .DL => .ok (some c.dl)
  | .Register16 _ => .ok none
  | .AddressingMode mode =>
      match calc_effective_address c mode seg_override with
      | .error p => .error p
      | .ok (segment, offset) =>
          match bus.read_u8 (get_linear_address segment offset) with
          | .ok (byte, _read_cost) => .ok (some byte)
          | .error _ => .error .busUnwrap
  | .NearAddress _ => .ok none
  | .FarAddress _ _ => .ok none
  | .NoOperand => .ok none
  | .InvalidOperand => .ok none

/-- Embedding of Cpu::read_operand16, with the same panic/return
convention as read_operand8; the catch-all arm of the Register16 match is
the source's panic on an unrecognized identity. -/
def read_operand16 (c : Cpu) (bus : BusInterface) (operand : OperandType)
    (seg_override : SegmentOverride) : Except EmuPanic (Option Nat) :=
  match operand with
  | .Immediate8 _ => .ok none
  | .Immediate16 imm16 => .ok (some imm16)
  | .Relative8 _ => .ok none
  | .Relative16 rel16 => .ok (some (rel16 % 65536))
  | .Offset8 _ => .ok none
  | .Offset16 _ => .ok none
  | .Register8 _ => .ok none
  | .Register16 reg16 =>
      match reg16 with
      | .AX => .ok (some c.ax)
      | .CX => .ok (some c.cx)
      | .DX => .ok (some c.dx)
      | .BX => .ok (some c.bx)
      | .SP => .ok (some c.sp)
      | .BP => .ok (some c.bp)
      | .SI => .ok (some c.si)
      | .DI => .ok (some c.di)
      | .ES => .ok (some c.es)
      | .CS => .ok (some c.cs)
      | .SS => .ok (some c.ss)
      | .DS => .ok (some c.ds)
      | .InvalidRegister => .error .invalidRegister16
  | .AddressingMode mode =>
      match calc_effective_address c mode seg_override with
      | .error p => .error p
      | .ok (segment, offset) =>
          match bus.read_u16 (get_linear_address segment offset) with
          | .ok (word, _read_cost) => .ok (some word)
          | .error _ => .error .busUnwrap
  | .NearAddress _ => .ok none
  | .FarAddress _ _ => .ok none
  | .NoOperand => .ok none
  | .InvalidOperand => .ok none

/-- Embedding of Cpu::write_operand8.  A normal return carries the
resulting register state and the list of bus write accesses the call
issued; Except.error is a panic as above. -/
def write_operand8 (c : Cpu) (bus : BusInterface) (operand : OperandType)
    (seg_override : SegmentOverride) (value : Nat) :
    Except EmuPanic (Cpu × List BusWrite) :=
  match operand with
  | .Immediate8 _ => .ok (c, [])
  | .Immediate16 _ => .ok (c, [])
  | .Relative8 _ => .ok (c, [])
  | .Relative16 _ => .ok (c, [])
  | .Offset8 _ => .ok (c, [])
  | .Offset16 _ => .ok (c, [])
  | .Register8 reg8 =>
      match reg8 with
      | .AH => .ok (set_register8 c .AH value, [])
      | .AL => .ok (set_register8 c .AL value, [])
      | .BH => .ok (set_register8 c .BH value, [])
      | .BL => .ok (set_register8 c .BL value, [])
      | .CH => .ok (set_register8 c .CH value, [])
      | .CL => .ok (set_register8 c .CL value, [])
      | .DH => .ok (set_register8 c .DH value, [])
      | .DL => .ok (set_register8 c .DL value, [])
  | .Register16 _ => .ok (c, [])
  | .AddressingMode mode =>
      match calc_effective_address c mode seg_override with
      | .error p => .error p
      | .ok (segment, offset) =>
          match bus.write_u8 (get_linear_address segment offset) value with
          | .ok _write_cost =>
              .ok (c, [BusWrite.w8 (get_linear_address segment offset) value])
          | .error _ => .error .busUnwrap
  | .NearAddress _ => .ok (c, [])
  | .FarAddress _ _ => .ok (c, [])
  | .NoOperand => .ok (c, [])
  | .InvalidOperand => .ok (c, [])

/-- Embedding of Cpu::write_operand16, with the same conventions; the
catch-all arm of the Register16 match is the source's panic. -/
def write_operand16 (c : Cpu) (bus : BusInterface) (operand : OperandType)
    (seg_override : SegmentOverride) (value : Nat) :
    Except EmuPanic (Cpu × List BusWrite) :=
  match operand with
  | .Immediate8 _ => .ok (c, [])
  | .Immediate16 _ => .ok (c, [])
  | .Relative8 _ => .ok (c, [])
  | .Relative16 _ => .ok (c, [])
  | .Offset8 _ => .ok (c, [])
  | .Offset16 _ => .ok (c, [])
  | .Register8 _ => .ok (c, [])
  | .Register16 reg16 =>
      match reg16 with
      | .AX => .ok (set_register16 c .AX value, [])
      | .CX => .ok (set_register16 c .CX value, [])
      | .DX => .ok (set_register16 c .DX value, [])
      | .BX => .ok (set_register16 c .BX value, [])
      | .SP => .ok (set_register16 c .SP value, [])
      | .BP => .ok (set_register16 c .BP value, [])
      | .SI => .ok (set_register16 c .SI value, [])
      | .DI => .ok (set_register16 c .DI value, [])
      | .ES => .ok (set_register16 c .ES value, [])
      | .CS => .ok (set_register16 c .CS value, [])
      | .SS => .ok (set_register16 c .SS value, [])
      | .DS => .ok (set_register16 c .DS value, [])
      | .InvalidRegister => .error .invalidRegister16
  | .AddressingMode mode =>
      match calc_effective_address c mode seg_override with
      | .error p => .error p
      | .ok (segment, offset) =>
          match bus.write_u16 (get_linear_address segment offset) value with
          | .ok _write_cost =>
              .ok (c, [BusWrite.w16 (get_linear_address segment offset) value])
          | .error _ => .error .busUnwrap
  | .NearAddress _ => .ok (c, [])
  | .FarAddress _ _ => .ok (c, [])
  | .NoOperand => .ok (c, [])
  | .InvalidOperand => .ok (c, [])

/-- Stated from the spec for comparison with the source: whether an
addressing mode uses BP as a base (and so defaults to the stack
segment). -/
def is_bp_based : AddressingMode → Bool
  | .BpSi | .BpDi => true
  | .BpSiDisp8 _ | .BpDiDisp8 _ | .BpDisp8 _ => true
  | .BpSiDisp16 _ | .BpDiDisp16 _ | .BpDisp16 _ => true
  | _ => false

/-- Stated from the spec for comparison with the source: the offset of a
memory addressing mode is the sum of the base register(s) named by the
mode plus the displacement, reduced modulo 65536.  RegisterMode has no
offset; it is mapped to 0 and excluded by hypothesis where used. -/
def offset_spec (c : Cpu) : AddressingMode → Nat
  | .BxSi => (c.bx + c.si) % 65536
  | .BxDi => (c.bx + c.di) % 65536
  | .BpSi => (c.bp + c.si) % 65536
  | .BpDi => (c.bp + c.di) % 65536
  | .Si => c.si % 65536
  | .Di => c.di % 65536
  | .Disp16 d => d.get_u16 % 65536
  | .Bx => c.bx % 65536
  | .BxSiDisp8 d => (c.bx + c.si + d.get_u16) % 65536
  | .BxDiDisp8 d => (c.bx + c.di + d.get_u16) % 65536
  | .BpSiDisp8 d => (c.bp + c.si + d.get_u16) % 65536
  | .BpDiDisp8 d => (c.bp + c.di + d.get_u16) % 65536
  | .SiDisp8 d => (c.si + d.get_u16) % 65536
  | .DiDisp8 d => (c.di + d.get_u16) % 65536
  | .BpDisp8 d => (c.bp + d.get_u16) % 65536
  | .BxDisp8 d => (c.bx + d.get_u16) % 65536
  | .BxSiDisp16 d => (c.bx + c.si + d.get_u16) % 65536
  | .BxDiDisp16 d => (c.bx + c.di + d.get_u16) % 65536
  | .BpSiDisp16 d => (c.bp + c.si + d.get_u16) % 65536
  | .BpDiDisp16 d => (c.bp + c.di + d.get_u16) % 65536
  | .SiDisp16 d => (c.si + d.get_u16) % 65536
  | .DiDisp16 d => (c.di + d.get_u16) % 65536
  | .BpDisp16 d => (c.bp + d.get_u16) % 65536
  | .BxDisp16 d => (c.bx + d.get_u16) % 65536
  | .RegisterMode => 0

/-- Stated from the spec for comparison with the source: the segment of a
memory addressing mode is the overridden segment register when an
override is present, else SS for BP-based modes and DS otherwise. -/
def segment_spec (c : Cpu) (ov : SegmentOverride) (mode : AddressingMode) : Nat :=
  match ov with
  | .NoOverride => if is_bp_based mode then c.ss else c.ds
  | .SegmentES => c.es
  | .SegmentCS => c.cs
  | .SegmentSS => c.ss
  | .SegmentDS => c.ds

/-- The displacement value is always a 16-bit quantity. -/
theorem Displacement.get_u16_lt (d : Displacement) : d.get_u16 < 65536 := by
  cases d <;> simp only [Displacement.get_u16] <;> [split; skip] <;> omega

/-- Reducing the displacement value modulo 65536 is the identity. -/
theorem Displacement.get_u16_mod (d : Displacement) :
    d.get_u16 % 65536 = d.get_u16 :=
  Nat.mod_eq_of_lt d.get_u16_lt

/-- C1: for every memory addressing mode, every well-formed register
state and every override, the offset component returned by
calc_effective_address is the wrapping 16-bit sum of the base register(s)
named by the mode plus the displacement, i.e. (bases + disp) mod 65536. -/
theorem calc_effective_address_offset_wraps (c : Cpu) (ov : SegmentOverride)
    (mode : AddressingMode) (hwf : c.Wf) (hm : mode ≠ AddressingMode.RegisterMode) :
    Except.map Prod.snd (calc_effective_address c mode ov) =
      Except.ok (offset_spec c mode) := by
  obtain ⟨h1, h2, h3, h4, h5, h6, h7, h8, h9, h10, h11, h12⟩ := hwf
  cases mode <;>
    first
    | exact absurd rfl hm
    | (simp only [calc_effective_address, offset_spec, wrapping_add,
        Except.map, Except.ok.injEq, Displacement.get_u16_mod] <;> omega)

/-- Concrete instance of C1 at the 16-bit wraparound boundary: SI holding
0xFFFF with a sign-extended 8-bit displacement of 1 gives offset 0. -/
theorem calc_effective_address_offset_wraps_witness :
    Except.map Prod.snd
      (calc_effective_address ⟨0, 0, 0, 0, 0, 0, 65535, 0, 0, 0, 0, 0⟩
        (AddressingMode.SiDisp8 (Displacement.Disp8 1)) SegmentOverride.NoOverride) =
      Except.ok 0 :=
  Eq.trans
    (calc_effective_address_offset_wraps ⟨0, 0, 0, 0, 0, 0, 65535, 0, 0, 0, 0, 0⟩
      SegmentOverride.NoOverride (AddressingMode.SiDisp8 (Displacement.Disp8 1))
      (by decide) (by decide))
    (by rfl)

/-- C2: for every memory addressing mode and every register state, the
segment component returned by calc_effective_address is SS for BP-based
modes and DS otherwise when no override is present, and the overridden
segment register under any of the four overrides. -/
theorem calc_effective_address_segment_rule (c : Cpu) (ov : SegmentOverride)
    (mode : AddressingMode) (hm : mode ≠ AddressingMode.RegisterMode) :
    Except.map Prod.fst (calc_effective_address c mode ov) =
      Except.ok (segment_spec c ov mode) := by
  cases mode <;>
    first
    | exact absurd rfl hm
    | (cases ov <;> rfl)

/-- Concrete instance of C2: BpDi with no override resolves to SS. -/
theorem calc_effective_address_segment_rule_witness :
    Except.map Prod.fst
      (calc_effective_address ⟨0, 0, 0, 0, 0, 0, 0, 0, 0, 30, 0, 40⟩
        AddressingMode.BpDi SegmentOverride.NoOverride) =
      Except.ok 40 :=
  Eq.trans
    (calc_effective_address_segment_rule ⟨0, 0, 0, 0, 0, 0, 0, 0, 0, 30, 0, 40⟩
      SegmentOverride.NoOverride AddressingMode.BpDi (by decide))
    (by rfl)

/-- C6: for every register state and every override, effective-address
calculation on RegisterMode is the source's panic (a fatal invariant
violation); it never returns a (segment, offset) pair. -/
theorem calc_effective_address_register_mode_panics (c : Cpu)
    (ov : SegmentOverride) :
    calc_effective_address c AddressingMode.RegisterMode ov =
      Except.error EmuPanic.eaRegisterMode := rfl

/-- C3: linear-address folding is (segment * 16 + offset) mod 2^20, with
the 1 MiB wraparound at 0xFFFF:0x0010 and the plain case 0x0000:0x0010;
and the memory-operand read path issues its bus access at exactly that
linear address of the pair produced by calc_effective_address. -/
theorem get_linear_address_formula :
    (∀ s o : Nat, get_linear_address s o = (s * 16 + o) % 1048576) ∧
    get_linear_address 65535 16 = 0 ∧
    get_linear_address 0 16 = 16 ∧
    (∀ (c : Cpu) (bus : BusInterface) (ov : SegmentOverride)
      (mode : AddressingMode),
      read_operand8 c bus (OperandType.AddressingMode mode) ov =
        match calc_effective_address c mode ov with
        | .error p => .error p
        | .ok so =>
            match bus.read_u8 (get_linear_address so.1 so.2) with
            | .ok bc => .ok (some bc.1)
            | .error _ => .error .busUnwrap) := by
  refine ⟨fun s o => rfl, rfl, rfl, fun c bus ov mode => ?_⟩
  cases hc : calc_effective_address c mode ov with
  | error p => simp [read_operand8, hc]
  | ok so =>
      obtain ⟨s, o⟩ := so
      cases hb : bus.read_u8 (get_linear_address s o) with
      | error e => simp [read_operand8, hc, hb]
      | ok bc =>
          obtain ⟨b, k⟩ := bc
          simp [read_operand8, hc, hb]

/-- C4: read_operand8 yields no value on every operand kind that is not
8-bit-meaningful, and read_operand16 yields no value on every 8-bit-only
or inapplicable kind, for all register states, buses and overrides; each
is a normal return, not a panic. -/
theorem read_operand_width_mismatch_is_none (c : Cpu) (bus : BusInterface)
    (ov : SegmentOverride) (n m s o p q : Nat) (r8 : Register8) (r16 : Register16) :
    (read_operand8 c bus (OperandType.Immediate16 n) ov = Except.ok none) ∧
    (read_operand8 c bus (OperandType.Relative16 n) ov = Except.ok none) ∧
    (read_operand8 c bus (OperandType.Offset8 n) ov = Except.ok none) ∧
    (read_operand8 c bus (OperandType.Offset16 n) ov = Except.ok none) ∧
    (read_operand8 c bus (OperandType.Register16 r16) ov = Except.ok none) ∧
    (read_operand8 c bus (OperandType.NearAddress n) ov = Except.ok none) ∧
    (read_operand8 c bus (OperandType.FarAddress s o) ov = Except.ok none) ∧
    (read_operand8 c bus OperandType.NoOperand ov = Except.ok none) ∧
    (read_operand8 c bus OperandType.InvalidOperand ov = Except.ok none) ∧
    (read_operand16 c bus (OperandType.Immediate8 m) ov = Except.ok none) ∧
    (read_operand16 c bus (OperandType.Relative8 m) ov = Except.ok none) ∧
    (read_operand16 c bus (OperandType.Offset8 m) ov = Except.ok none) ∧
    (read_operand16 c bus (OperandType.Offset16 m) ov = Except.ok none) ∧
    (read_operand16 c bus (OperandType.Register8 r8) ov = Except.ok none) ∧
    (read_operand16 c bus (OperandType.NearAddress p) ov = Except.ok none) ∧
    (read_operand16 c bus (OperandType.FarAddress p q) ov = Except.ok none) ∧
    (read_operand16 c bus OperandType.NoOperand ov = Except.ok none) ∧
    (read_operand16 c bus OperandType.InvalidOperand ov = Except.ok none) :=
  ⟨rfl, rfl, rfl, rfl, rfl, rfl, rfl, rfl, rfl,
   rfl, rfl, rfl, rfl, rfl, rfl, rfl, rfl, rfl⟩

/-- C5: writing through any non-target operand kind (immediates,
relative/offset encodings, near/far addresses, no-operand,
invalid-operand) at either width is a silent no-op: the register state is
returned unchanged, no bus write access is issued, and no panic occurs. -/
theorem write_operand_non_target_noop (c : Cpu) (bus : BusInterface)
    (ov : SegmentOverride) (v w : Nat) (n m s o : Nat) :
    (write_operand8 c bus (OperandType.Immediate8 n) ov v = Except.ok (c, [])) ∧
    (write_operand8 c bus (OperandType.Immediate16 n) ov v = Except.ok (c, [])) ∧
    (write_operand8 c bus (OperandType.Relative8 n) ov v = Except.ok (c, [])) ∧
    (write_operand8 c bus (OperandType.Relative16 n) ov v = Except.ok (c, [])) ∧
    (write_operand8 c bus (OperandType.Offset8 n) ov v = Except.ok (c, [])) ∧
    (write_operand8 c bus (OperandType.Offset16 n) ov v = Except.ok (c, [])) ∧
    (write_operand8 c bus (OperandType.NearAddress m) ov v = Except.ok (c, [])) ∧
    (write_operand8 c bus (OperandType.FarAddress s o) ov v = Except.ok (c, [])) ∧
    (write_operand8 c bus OperandType.NoOperand ov v = Except.ok (c, [])) ∧
    (write_operand8 c bus OperandType.InvalidOperand ov v = Except.ok (c, [])) ∧
    (write_operand16 c bus (OperandType.Immediate8 n) ov w = Except.ok (c, [])) ∧
    (write_operand16 c bus (OperandType.Immediate16 n) ov w = Except.ok (c, [])) ∧
    (write_operand16 c bus (OperandType.Relative8 n) ov w = Except.ok (c, [])) ∧
    (write_operand16 c bus (OperandType.Relative16 n) ov w = Except.ok (c, [])) ∧
    (write_operand16 c bus (OperandType.Offset8 n) ov w = Except.ok (c, [])) ∧
    (write_operand16 c bus (OperandType.Offset16 n) ov w = Except.ok (c, [])) ∧
    (write_operand16 c bus (OperandType.NearAddress m) ov w = Except.ok (c, [])) ∧
    (write_operand16 c bus (OperandType.FarAddress s o) ov w = Except.ok (c, [])) ∧
    (write_operand16 c bus OperandType.NoOperand ov w = Except.ok (c, [])) ∧
    (write_operand16 c bus OperandType.InvalidOperand ov w = Except.ok (c, [])) :=
  ⟨rfl, rfl, rfl, rfl, rfl, rfl, rfl, rfl, rfl, rfl,
   rfl, rfl, rfl, rfl, rfl, rfl, rfl, rfl, rfl, rfl⟩

/-- C10: a width-mismatched register write is a silent no-op at either
pairing: write_operand8 on a Register16 operand and write_operand16 on a
Register8 operand return the register state unchanged, issue no bus
access and raise no panic, for every register identity, value, override
and state. -/
theorem write_operand_width_mismatched_register_noop (c : Cpu)
    (bus : BusInterface) (ov : SegmentOverride) (v w : Nat)
    (r16 : Register16) (r8 : Register8) :
    (write_operand8 c bus (OperandType.Register16 r16) ov v = Except.ok (c, [])) ∧
    (write_operand16 c bus (OperandType.Register8 r8) ov w = Except.ok (c, [])) :=
  ⟨rfl, rfl⟩

/-- The other half of the 16-bit register backing a given 8-bit
identity. -/
def other_half : Register8 → Register8
  | .AH => .AL
  | .AL => .AH
  | .BH => .BL
  | .BL => .BH
  | .CH => .CL
  | .CL => .CH
  | .DH => .DL
  | .DL => .DH

/-- C9: for every 8-bit register identity and 8-bit value, writing
through write_operand8 and reading the same Register8 operand back with
read_operand8 yields the value, and reading the other half of the same
backing 16-bit register is unchanged by the write. -/
theorem register8_write_read_roundtrip (c : Cpu) (bus : BusInterface)
    (ov : SegmentOverride) (r : Register8) (v : Nat) (hv : v < 256) :
    write_operand8 c bus (OperandType.Register8 r) ov v =
      Except.ok (set_register8 c r v, []) ∧
    read_operand8 (set_register8 c r v) bus (OperandType.Register8 r) ov =
      Except.ok (some v) ∧
    read_operand8 (set_register8 c r v) bus
        (OperandType.Register8 (other_half r)) ov =
      read_operand8 c bus (OperandType.Register8 (other_half r)) ov := by
  refine ⟨by cases r <;> rfl, ?_, ?_⟩ <;>
    cases r <;>
      simp [read_operand8, set_register8, other_half, Cpu.ah, Cpu.al,
        Cpu.bh, Cpu.bl, Cpu.ch, Cpu.cl, Cpu.dh, Cpu.dl] <;> omega

/-- A concrete register state used by the concrete instances below. -/
def cpu0 : Cpu := ⟨0, 0, 0, 0, 0, 0, 0, 0, 0, 0, 0, 0⟩

/-- A concrete bus on which every access fails with an out-of-range
error. -/
def busFail : BusInterface :=
  ⟨fun _ => .error .OutOfRange, fun _ => .error .OutOfRange,
   fun _ _ => .error .OutOfRange, fun _ _ => .error .OutOfRange⟩

/-- A concrete bus returning byte b, word w and access cost k on every
access. -/
def busConst (b w k : Nat) : BusInterface :=
  ⟨fun _ => .ok (b, k), fun _ => .ok (w, k),
   fun _ _ => .ok k, fun _ _ => .ok k⟩

/-- Concrete instance of C9: CX holds 0x1234; writing 0xAB to CH reads
back as 0xAB and CL still reads 0x34. -/
theorem register8_write_read_roundtrip_witness :
    171 < 256 ∧
    (write_operand8 ⟨0, 0, 4660, 0, 0, 0, 0, 0, 0, 0, 0, 0⟩ (busConst 0 0 0)
        (OperandType.Register8 Register8.CH) SegmentOverride.NoOverride 171 =
      Except.ok (set_register8 ⟨0, 0, 4660, 0, 0, 0, 0, 0, 0, 0, 0, 0⟩
        Register8.CH 171, []) ∧
    read_operand8 (set_register8 ⟨0, 0, 4660, 0, 0, 0, 0, 0, 0, 0, 0, 0⟩
        Register8.CH 171) (busConst 0 0 0)
        (OperandType.Register8 Register8.CH) SegmentOverride.NoOverride =
      Except.ok (some 171) ∧
    read_operand8 (set_register8 ⟨0, 0, 4660, 0, 0, 0, 0, 0, 0, 0, 0, 0⟩
        Register8.CH 171) (busConst 0 0 0)
        (OperandType.Register8 (other_half Register8.CH)) SegmentOverride.NoOverride =
      read_operand8 ⟨0, 0, 4660, 0, 0, 0, 0, 0, 0, 0, 0, 0⟩ (busConst 0 0 0)
        (OperandType.Register8 (other_half Register8.CH)) SegmentOverride.NoOverride) :=
  ⟨by decide,
   register8_write_read_roundtrip ⟨0, 0, 4660, 0, 0, 0, 0, 0, 0, 0, 0, 0⟩
     (busConst 0 0 0) SegmentOverride.NoOverride Register8.CH 171 (by decide)⟩

/-- C7 fails on the code: at a concrete failing bus, every memory-operand
entry point ends in the unwrap panic (a fatal abort), not a recoverable
outcome returned to the caller. -/
theorem bus_failure_not_propagated_counterexample :
    read_operand8 cpu0 busFail (OperandType.AddressingMode AddressingMode.BxSi)
        SegmentOverride.NoOverride = Except.error EmuPanic.busUnwrap ∧
    read_operand16 cpu0 busFail (OperandType.AddressingMode AddressingMode.BxSi)
        SegmentOverride.NoOverride = Except.error EmuPanic.busUnwrap ∧
    write_operand8 cpu0 busFail (OperandType.AddressingMode AddressingMode.BxSi)
        SegmentOverride.NoOverride 0 = Except.error EmuPanic.busUnwrap ∧
    write_operand16 cpu0 busFail (OperandType.AddressingMode AddressingMode.BxSi)
        SegmentOverride.NoOverride 0 = Except.error EmuPanic.busUnwrap :=
  ⟨rfl, rfl, rfl, rfl⟩

/-- C7 as amended: whenever the bus access for a memory operand fails,
each of the four entry points unwraps the failure into a panic; the bus
error itself is never returned to the caller. -/
theorem bus_failure_is_unwrap_panic (c : Cpu) (bus : BusInterface)
    (ov : SegmentOverride) (mode : AddressingMode) (seg off v : Nat)
    (e1 e2 e3 e4 : BusError)
    (hcalc : calc_effective_address c mode ov = Except.ok (seg, off))
    (h1 : bus.read_u8 (get_linear_address seg off) = Except.error e1)
    (h2 : bus.read_u16 (get_linear_address seg off) = Except.error e2)
    (h3 : bus.write_u8 (get_linear_address seg off) v = Except.error e3)
    (h4 : bus.write_u16 (get_linear_address seg off) v = Except.error e4) :
    read_operand8 c bus (OperandType.AddressingMode mode) ov =
      Except.error EmuPanic.busUnwrap ∧
    read_operand16 c bus (OperandType.AddressingMode mode) ov =
      Except.error EmuPanic.busUnwrap ∧
    write_operand8 c bus (OperandType.AddressingMode mode) ov v =
      Except.error EmuPanic.busUnwrap ∧
    write_operand16 c bus (OperandType.AddressingMode mode) ov v =
      Except.error EmuPanic.busUnwrap := by
  refine ⟨?_, ?_, ?_, ?_⟩ <;>
    simp [read_operand8, read_operand16, write_operand8, write_operand16,
      hcalc, h1, h2, h3, h4]

/-- Concrete instance of the amended C7 at mode BxDi on the failing
bus. -/
theorem bus_failure_is_unwrap_panic_witness :
    calc_effective_address cpu0 AddressingMode.BxDi SegmentOverride.NoOverride =
      Except.ok (0, 0) ∧
    busFail.read_u8 (get_linear_address 0 0) = Except.error BusError.OutOfRange ∧
    (read_operand8 cpu0 busFail (OperandType.AddressingMode AddressingMode.BxDi)
        SegmentOverride.NoOverride = Except.error EmuPanic.busUnwrap ∧
    read_operand16 cpu0 busFail (OperandType.AddressingMode AddressingMode.BxDi)
        SegmentOverride.NoOverride = Except.error EmuPanic.busUnwrap ∧
    write_operand8 cpu0 busFail (OperandType.AddressingMode AddressingMode.BxDi)
        SegmentOverride.NoOverride 7 = Except.error EmuPanic.busUnwrap ∧
    write_operand16 cpu0 busFail (OperandType.AddressingMode AddressingMode.BxDi)
        SegmentOverride.NoOverride 7 = Except.error EmuPanic.busUnwrap) :=
  ⟨rfl, rfl,
   bus_failure_is_unwrap_panic cpu0 busFail SegmentOverride.NoOverride
     AddressingMode.BxDi 0 0 7 BusError.OutOfRange BusError.OutOfRange
     BusError.OutOfRange BusError.OutOfRange rfl rfl rfl rfl rfl⟩

/-- The given bus with every reported access cost replaced by k; values
and errors are unchanged. -/
def setCosts (bus : BusInterface) (k : Nat) : BusInterface where
  read_u8 a := (bus.read_u8 a).map fun p => (p.1, k)
  read_u16 a := (bus.read_u16 a).map fun p => (p.1, k)
  write_u8 a v := (bus.write_u8 a v).map fun _ => k
  write_u16 a v := (bus.write_u16 a v).map fun _ => k

theorem read_operand8_cost_irrelevant (c : Cpu) (bus : BusInterface)
    (op : OperandType) (ov : SegmentOverride) (k1 k2 : Nat) :
    read_operand8 c (setCosts bus k1) op ov =
      read_operand8 c (setCosts bus k2) op ov := by
  cases op <;> try rfl
  case AddressingMode mode =>
    cases hc : calc_effective_address c mode ov with
    | error p => simp [read_operand8, hc]
    | ok so =>
        obtain ⟨s, o⟩ := so
        cases hb : bus.read_u8 (get_linear_address s o) with
        | error e => simp [read_operand8, hc, setCosts, hb, Except.map]
        | ok bc => simp [read_operand8, hc, setCosts, hb, Except.map]

theorem read_operand16_cost_irrelevant (c : Cpu) (bus : BusInterface)
    (op : OperandType) (ov : SegmentOverride) (k1 k2 : Nat) :
    read_operand16 c (setCosts bus k1) op ov =
      read_operand16 c (setCosts bus k2) op ov := by
  cases op <;> try rfl
  case AddressingMode mode =>
    cases hc : calc_effective_address c mode ov with
    | error p => simp [read_operand16, hc]
    | ok so =>
        obtain ⟨s, o⟩ := so
        cases hb : bus.read_u16 (get_linear_address s o) with
        | error e => simp [read_operand16, hc, setCosts, hb, Except.map]
        | ok bc => simp [read_operand16, hc, setCosts, hb, Except.map]

theorem write_operand8_cost_irrelevant (c : Cpu) (bus : BusInterface)
    (op : OperandType) (ov : SegmentOverride) (v : Nat) (k1 k2 : Nat) :
    write_operand8 c (setCosts bus k1) op ov v =
      write_operand8 c (setCosts bus k2) op ov v := by
  cases op <;> try rfl
  case AddressingMode mode =>
    cases hc : calc_effective_address c mode ov with
    | error p => simp [write_operand8, hc]
    | ok so =>
        obtain ⟨s, o⟩ := so
        cases hb : bus.write_u8 (get_linear_address s o) v with
        | error e => simp [write_operand8, hc, setCosts, hb, Except.map]
        | ok k => simp [write_operand8, hc, setCosts, hb, Except.map]

theorem write_operand16_cost_irrelevant (c : Cpu) (bus : BusInterface)
    (op : OperandType) (ov : SegmentOverride) (v : Nat) (k1 k2 : Nat) :
    write_operand16 c (setCosts bus k1) op ov v =
      write_operand16 c (setCosts bus k2) op ov v := by
  cases op <;> try rfl
  case AddressingMode mode =>
    cases hc : calc_effective_address c mode ov with
    | error p => simp [write_operand16, hc]
    | ok so =>
        obtain ⟨s, o⟩ := so
        cases hb : bus.write_u16 (get_linear_address s o) v with
        | error e => simp [write_operand16, hc, setCosts, hb, Except.map]
        | ok k => simp [write_operand16, hc, setCosts, hb, Except.map]

/-- C8 fails on the code: at a concrete memory operand, two buses agreeing
on values but reporting access costs 7 and 1000 yield literally identical
results from the read and write entry points, and the read result carries
only the byte: the per-access cost reported by the bus is discarded
inside this layer, not surfaced to the caller. -/
theorem access_cost_not_surfaced_counterexample :
    (busConst 42 300 7).read_u8 0 = Except.ok (42, 7) ∧
    (busConst 42 300 1000).read_u8 0 = Except.ok (42, 1000) ∧
    read_operand8 cpu0 (busConst 42 300 7)
        (OperandType.AddressingMode AddressingMode.BxSi) SegmentOverride.NoOverride =
      read_operand8 cpu0 (busConst 42 300 1000)
        (OperandType.AddressingMode AddressingMode.BxSi) SegmentOverride.NoOverride ∧
    read_operand8 cpu0 (busConst 42 300 7)
        (OperandType.AddressingMode AddressingMode.BxSi) SegmentOverride.NoOverride =
      Except.ok (some 42) ∧
    write_operand8 cpu0 (busConst 42 300 7)
        (OperandType.AddressingMode AddressingMode.BxSi) SegmentOverride.NoOverride 5 =
      write_operand8 cpu0 (busConst 42 300 1000)
        (OperandType.AddressingMode AddressingMode.BxSi) SegmentOverride.NoOverride 5 :=
  ⟨rfl, rfl, rfl, rfl, rfl⟩

/-- C8 as amended: the per-access timing cost reported by the bus is
discarded within this layer; every entry point's result is invariant
under replacing the costs a bus reports, for every operand, register
state and override. -/
theorem operand_access_ignores_bus_cost (c : Cpu) (bus : BusInterface)
    (op : OperandType) (ov : SegmentOverride) (v w : Nat) (k1 k2 : Nat) :
    read_operand8 c (setCosts bus k1) op ov =
      read_operand8 c (setCosts bus k2) op ov ∧
    read_operand16 c (setCosts bus k1) op ov =
      read_operand16 c (setCosts bus k2) op ov ∧
    write_operand8 c (setCosts bus k1) op ov v =
      write_operand8 c (setCosts bus k2) op ov v ∧
    write_operand16 c (setCosts bus k1) op ov w =
      write_operand16 c (setCosts bus k2) op ov w :=
  ⟨read_operand8_cost_irrelevant c bus op ov k1 k2,
   read_operand16_cost_irrelevant c bus op ov k1 k2,
   write_operand8_cost_irrelevant c bus op ov v k1 k2,
   write_operand16_cost_irrelevant c bus op ov w k1 k2⟩
